import Mathlib

/-!
Verification of the viberag repository specification.

The repository ships three Python test-fixture files (decorators.py,
python_imports.py, math.py). The spec describes a static source-metadata
extractor (MetadataExtractor + ImportResolver) as the plausible consumer of
these fixtures; that consumer is not present in the repository, so it is
modelled here from the spec, while the fixture sources are transcribed
verbatim and the `retry` fixture's runtime behaviour is embedded from the
source.
-/

namespace VibeRag

/-! ## Data model (spec section 3) -/

/-- A function parameter: name with an optional type annotation string. -/
structure Param where
  name : String
  ty : Option String
deriving DecidableEq, Repr

/-- Modelled from the spec: FunctionRecord carries name, ordered decorator
names (empty when undecorated), optional docstring, ordered parameters and
optional return type. -/
structure FunctionRecord where
  name : String
  decorator_names : List String
  docstring : Option String
  parameters : List Param
  return_type : Option String
deriving DecidableEq, Repr

/-- Modelled from the spec: ImportBinding maps a locally-bound name to its
origin module and symbol; `is_relative` flags dot-prefixed module paths. -/
structure ImportBinding where
  local_name : String
  origin_module : String
  origin_symbol : Option String
  is_relative : Bool
deriving DecidableEq, Repr

/-- Modelled from the spec: a ParseError carries a source location (line
number) and a message; it aborts extraction for the whole source unit. -/
structure ParseError where
  line : Nat
  message : String
deriving DecidableEq, Repr

/-! ## Tokens

The spec (section 9) prescribes an explicit node-kind tagged representation
walked by plain recursive functions.  Tokens of one logical source line. -/

inductive Tok where
  | ident (s : String)
  | strTok (s : String)
  | dot
  | comma
  | colon
  | lparen
  | rparen
  | atSign
  | arrow
  | star
  | eqSign
  | otherTok (c : Char)
deriving DecidableEq, Repr

def isIdentChar (c : Char) : Bool :=
  c.isAlpha || c.isDigit || c = '_'

/-- Read an identifier run. -/
def takeIdent : List Char → (List Char × List Char)
  | [] => ([], [])
  | c :: cs =>
    if isIdentChar c then
      let (run, rest) := takeIdent cs
      (c :: run, rest)
    else ([], c :: cs)

/-- Read characters of a single-quoted (one double-quote) string until the
closing quote; newline or end of input means the literal is unterminated. -/
def takeShortString : List Char → Option (List Char × List Char)
  | [] => none
  | c :: cs =>
    if c = '"' then some ([], cs)
    else if c = '\n' then none
    else match takeShortString cs with
      | some (content, rest) => some (c :: content, rest)
      | none => none

/-- Read characters of a triple-quoted string until the closing quotes. -/
def takeLongString : List Char → Option (List Char × List Char)
  | '"' :: '"' :: '"' :: cs => some ([], cs)
  | c :: cs =>
    match takeLongString cs with
    | some (content, rest) => some (c :: content, rest)
    | none => none
  | [] => none

/-- Tokenize the characters of one logical line, fueled (each step consumes
at least one character, so fuel equal to the length suffices).  Whitespace
(spaces, tabs and the newlines kept inside triple-quoted literals aside)
only separates tokens and is dropped. -/
def tokenizeF : Nat → List Char → Except String (List Tok)
  | 0, [] => .ok []
  | 0, _ :: _ => .error "internal: tokenizer fuel exhausted"
  | _ + 1, [] => .ok []
  | fuel + 1, '"' :: '"' :: '"' :: cs =>
    match takeLongString cs with
    | some (content, rest) =>
      match tokenizeF fuel rest with
      | .ok ts => .ok (.strTok (String.mk content) :: ts)
      | .error e => .error e
    | none => .error "unterminated string literal"
  | fuel + 1, '"' :: cs =>
    match takeShortString cs with
    | some (content, rest) =>
      match tokenizeF fuel rest with
      | .ok ts => .ok (.strTok (String.mk content) :: ts)
      | .error e => .error e
    | none => .error "unterminated string literal"
  | fuel + 1, '-' :: '>' :: cs =>
    match tokenizeF fuel cs with
    | .ok ts => .ok (.arrow :: ts)
    | .error e => .error e
  | fuel + 1, c :: cs =>
    if c = ' ' || c = '\t' || c = '\n' then tokenizeF fuel cs
    else if isIdentChar c then
      match takeIdent cs with
      | (run, rest) =>
        match tokenizeF fuel rest with
        | .ok ts => .ok (.ident (String.mk (c :: run)) :: ts)
        | .error e => .error e
    else
      let tok : Tok :=
        if c = '.' then .dot
        else if c = ',' then .comma
        else if c = ':' then .colon
        else if c = '(' then .lparen
        else if c = ')' then .rparen
        else if c = '@' then .atSign
        else if c = '*' then .star
        else if c = '=' then .eqSign
        else .otherTok c
      match tokenizeF fuel cs with
      | .ok ts => .ok (tok :: ts)
      | .error e => .error e

/-- Tokenize one logical line. -/
def tokenize (cs : List Char) : Except String (List Tok) :=
  tokenizeF cs.length cs

/-! ## Logical lines

A logical line joins physical lines through open parentheses and
triple-quoted string literals; comments are stripped; blank lines are
dropped.  Each logical line remembers the physical line it started on. -/

/-- One logical line: starting physical line number and its characters. -/
structure RawLine where
  lineNo : Nat
  content : List Char
deriving DecidableEq, Repr

/-- Scanner state: ordinary code, inside a one-quote string, inside a
triple-quoted string, or inside a comment. -/
inductive ScanMode where
  | norm
  | short
  | long
  | comment
deriving DecidableEq, Repr

def isBlank (cs : List Char) : Bool :=
  cs.all (fun c => c = ' ' || c = '\t')

/-- Finish the current logical line, dropping it when blank.  `cur` is held
in reverse order while scanning. -/
def pushLine (startLine : Nat) (cur : List Char) (acc : List RawLine) : List RawLine :=
  if isBlank cur then acc else ⟨startLine, cur.reverse⟩ :: acc

/-- Split source characters into logical lines.  Newlines at paren depth
zero terminate a logical line; inside parentheses they are insignificant
whitespace; inside a triple-quoted literal they belong to the literal; in a
one-quote literal they are a syntax error.  Unbalanced parentheses and
unterminated literals signal a ParseError with the current line number. -/
def scanF (mode : ScanMode) (depth lineNo startLine : Nat) (cur : List Char)
    (acc : List RawLine) : List Char → Except ParseError (List RawLine)
  | [] =>
    match mode with
    | .short => .error ⟨lineNo, "unterminated string literal"⟩
    | .long => .error ⟨lineNo, "unterminated string literal"⟩
    | _ =>
      if depth = 0 then .ok (pushLine startLine cur acc).reverse
      else .error ⟨lineNo, "unexpected end of source inside parentheses"⟩
  | c :: cs =>
    match mode with
    | .short =>
      if c = '"' then scanF .norm depth lineNo startLine (c :: cur) acc cs
      else if c = '\n' then .error ⟨lineNo, "unterminated string literal"⟩
      else scanF .short depth lineNo startLine (c :: cur) acc cs
    | .long =>
      match c :: cs with
      | '"' :: '"' :: '"' :: cs' =>
        scanF .norm depth lineNo startLine ('"' :: '"' :: '"' :: cur) acc cs'
      | '\n' :: cs' =>
        scanF .long depth (lineNo + 1) startLine ('\n' :: cur) acc cs'
      | c' :: cs' => scanF .long depth lineNo startLine (c' :: cur) acc cs'
      | [] => .error ⟨lineNo, "unterminated string literal"⟩
    | .comment =>
      if c = '\n' then
        if depth = 0 then
          scanF .norm depth (lineNo + 1) (lineNo + 1) [] (pushLine startLine cur acc) cs
        else scanF .norm depth (lineNo + 1) startLine (' ' :: cur) acc cs
      else scanF .comment depth lineNo startLine cur acc cs
    | .norm =>
      match c :: cs with
      | '"' :: '"' :: '"' :: cs' =>
        scanF .long depth lineNo startLine ('"' :: '"' :: '"' :: cur) acc cs'
      | '"' :: cs' => scanF .short depth lineNo startLine ('"' :: cur) acc cs'
      | '\n' :: cs' =>
        if depth = 0 then
          scanF .norm depth (lineNo + 1) (lineNo + 1) [] (pushLine startLine cur acc) cs'
        else scanF .norm depth (lineNo + 1) startLine (' ' :: cur) acc cs'
      | '#' :: cs' => scanF .comment depth lineNo startLine cur acc cs'
      | '(' :: cs' => scanF .norm (depth + 1) lineNo startLine ('(' :: cur) acc cs'
      | ')' :: cs' =>
        if depth = 0 then .error ⟨lineNo, "unmatched closing parenthesis"⟩
        else scanF .norm (depth - 1) lineNo startLine (')' :: cur) acc cs'
      | c' :: cs' => scanF .norm depth lineNo startLine (c' :: cur) acc cs'
      | [] =>
        if depth = 0 then .ok (pushLine startLine cur acc).reverse
        else .error ⟨lineNo, "unexpected end of source inside parentheses"⟩

/-- Split a source text into logical lines. -/
def splitLogicalLines (src : String) : Except ParseError (List RawLine) :=
  scanF .norm 0 1 1 [] [] src.data

/-! ## Tokenized logical lines -/

/-- A logical line after tokenization: line number, indentation depth
(count of leading spaces) and tokens. -/
structure LLine where
  lineNo : Nat
  indent : Nat
  toks : List Tok
deriving DecidableEq, Repr

def countIndent : List Char → Nat
  | ' ' :: cs => countIndent cs + 1
  | _ => 0

def tokenizeLines : List RawLine → Except ParseError (List LLine)
  | [] => .ok []
  | r :: rs =>
    match tokenize r.content with
    | .error msg => .error ⟨r.lineNo, msg⟩
    | .ok ts =>
      match tokenizeLines rs with
      | .error e => .error e
      | .ok ls => .ok (⟨r.lineNo, countIndent r.content, ts⟩ :: ls)

/-! ## Statements

Modelled from the spec: an explicit node-kind tagged syntax tree
(section 9), covering the statement kinds the fixtures exercise.  The
decorator names on a function definition are the callee base names in
source top-to-bottom order; other compound statements keep their indented
sub-block so that function definitions at any scope depth are reachable. -/

inductive PyStmt where
  | strLit (s : String)
  | importFrom (module : String) (items : List (String × Option String))
  | importMod (module : String) (asName : Option String)
  | funcDef (name : String) (decorator_names : List String)
      (parameters : List Param) (return_type : Option String)
      (body : List PyStmt)
  | other (sub : List PyStmt)

/-- The classification of one logical line. -/
inductive LineKind where
  | decoratorLine (name : String)
  | defLine (name : String) (ps : List Param) (ret : Option String)
  | simple (s : PyStmt)

/-- Dotted-name continuation: absorb `.ident` pairs into the name. -/
def parseDottedRest (acc : String) : List Tok → String × List Tok
  | .dot :: .ident s :: rest => parseDottedRest (acc ++ "." ++ s) rest
  | rest => (acc, rest)

/-- Parse a dotted name `a.b.c`. -/
def parseDotted : List Tok → Option (String × List Tok)
  | .ident s :: rest => some (parseDottedRest s rest)
  | _ => none

/-- Count leading dot tokens (relative-import depth). -/
def countDots : List Tok → Nat × List Tok
  | .dot :: ts =>
    match countDots ts with
    | (n, r) => (n + 1, r)
  | ts => (0, ts)

def renderTok : Tok → String
  | .ident s => s
  | .strTok s => s
  | .dot => "."
  | .comma => ","
  | .colon => ":"
  | .lparen => "("
  | .rparen => ")"
  | .atSign => "@"
  | .arrow => "->"
  | .star => "*"
  | .eqSign => "="
  | .otherTok c => String.mk [c]

def renderToks (ts : List Tok) : String :=
  String.join (ts.map renderTok)

/-- Split at the first token satisfying `stop` at parenthesis depth zero. -/
def splitAtDelim (stop : Tok → Bool) : Nat → List Tok → List Tok × List Tok
  | _, [] => ([], [])
  | depth, t :: ts =>
    if depth = 0 && stop t then ([], t :: ts)
    else
      let depth' := if t = .lparen then depth + 1
        else if t = .rparen then depth - 1 else depth
      match splitAtDelim stop depth' ts with
      | (pre, post) => (t :: pre, post)

def dropStars : List Tok → List Tok
  | .star :: ts => dropStars ts
  | ts => ts

/-- Parse a parameter list up to and including the closing parenthesis.
A parameter is zero or more stars, a name, an optional `: annotation` and
an optional `= default` whose value tokens are skipped. -/
def parseParamsF : Nat → List Tok → Except String (List Param × List Tok)
  | 0, _ => .error "internal: parameter fuel exhausted"
  | _ + 1, .rparen :: rest => .ok ([], rest)
  | fuel + 1, toks =>
    match dropStars toks with
    | .ident n :: rest =>
      let annRest : Option String × List Tok :=
        match rest with
        | .colon :: r =>
          match splitAtDelim (fun t => t = .comma || t = .rparen || t = .eqSign) 0 r with
          | (annToks, r') => (some (renderToks annToks), r')
        | _ => (none, rest)
      let rest2 : List Tok :=
        match annRest.2 with
        | .eqSign :: r => (splitAtDelim (fun t => t = .comma || t = .rparen) 0 r).2
        | r => r
      match rest2 with
      | .comma :: r =>
        match parseParamsF fuel r with
        | .ok (ps, rem) => .ok (⟨n, annRest.1⟩ :: ps, rem)
        | .error e => .error e
      | .rparen :: r => .ok ([⟨n, annRest.1⟩], r)
      | _ => .error "malformed parameter list"
    | _ => .error "malformed parameter list"

/-- Parse the comma-separated items of a from-import, each `name` or
`name as alias`; a trailing comma is allowed. -/
def parseItems : List Tok → Except String (List (String × Option String))
  | [.ident s] => .ok [(s, none)]
  | [.ident s, .comma] => .ok [(s, none)]
  | .ident s :: .comma :: rest =>
    match parseItems rest with
    | .ok items => .ok ((s, none) :: items)
    | .error e => .error e
  | .ident s :: .ident kw :: .ident loc :: rest' =>
    if kw = "as" then
      match rest' with
      | [] => .ok [(s, some loc)]
      | [.comma] => .ok [(s, some loc)]
      | .comma :: rest =>
        match parseItems rest with
        | .ok items => .ok ((s, some loc) :: items)
        | .error e => .error e
      | _ => .error "malformed import list"
    else .error "malformed import list"
  | _ => .error "malformed import list"

/-- From-import items, possibly wrapped in parentheses covering the rest of
the logical line. -/
def parseImportItems (toks : List Tok) : Except String (List (String × Option String)) :=
  match toks with
  | .lparen :: inner =>
    if inner.getLast? = some .rparen then
      parseItems inner.dropLast
    else .error "unclosed parenthesis in import list"
  | _ => parseItems toks

/-- Classify one tokenized logical line. -/
def classify (toks : List Tok) : Except String LineKind :=
  match toks with
  | .atSign :: rest =>
    match parseDotted rest with
    | some (name, rest') =>
      match rest' with
      | [] => .ok (.decoratorLine name)
      | .lparen :: _ => .ok (.decoratorLine name)
      | _ => .error "malformed decorator"
    | none => .error "malformed decorator"
  | .ident kw :: .ident n :: .lparen :: rest =>
    if kw = "def" then
      match parseParamsF (rest.length + 1) rest with
      | .error e => .error e
      | .ok (ps, rem) =>
        match rem with
        | [.colon] => .ok (.defLine n ps none)
        | .arrow :: rem' =>
          match splitAtDelim (fun t => t = .colon) 0 rem' with
          | (retToks, rem'') =>
            match rem'' with
            | [.colon] => .ok (.defLine n ps (some (renderToks retToks)))
            | _ => .error "malformed function header"
        | _ => .error "malformed function header"
    else .ok (.simple (.other []))
  | .ident kw :: rest =>
    if kw = "from" then
      match countDots rest with
      | (dots, rest1) =>
        let dotsStr := String.mk (List.replicate dots '.')
        match rest1 with
        | .ident kw2 :: rest2 =>
          if kw2 = "import" then
            if dots = 0 then .error "malformed import statement"
            else
              match parseImportItems rest2 with
              | .ok items => .ok (.simple (.importFrom dotsStr items))
              | .error e => .error e
          else
            match parseDotted rest1 with
            | some (m, rest3) =>
              match rest3 with
              | .ident kw3 :: rest4 =>
                if kw3 = "import" then
                  match parseImportItems rest4 with
                  | .ok items => .ok (.simple (.importFrom (dotsStr ++ m) items))
                  | .error e => .error e
                else .error "malformed import statement"
              | _ => .error "malformed import statement"
            | none => .error "malformed import statement"
        | _ => .error "malformed import statement"
    else if kw = "import" then
      match parseDotted rest with
      | some (m, rest1) =>
        match rest1 with
        | [] => .ok (.simple (.importMod m none))
        | [.ident kw2, .ident a] =>
          if kw2 = "as" then .ok (.simple (.importMod m (some a)))
          else .error "malformed import statement"
        | _ => .error "malformed import statement"
      | none => .error "malformed import statement"
    else if kw = "def" then .error "malformed function definition"
    else .ok (.simple (.other []))
  | [.strTok s] => .ok (.simple (.strLit s))
  | _ => .ok (.simple (.other []))

/-! ## Block parsing

Modelled from the spec: recursive descent over logical lines grouped by
indentation.  Decorator lines accumulate in `pend` (written top-to-bottom
order) until the function definition they precede; a deeper-indented block
after a plain statement is that compound statement's body.  Fuel bounds the
nesting depth; every recursive call receives a strict suffix of the lines,
so fuel `lines.length + 1` always suffices. -/

def parseBlockF : Nat → Nat → List String → List LLine →
    Except ParseError (List PyStmt × List LLine)
  | 0, _, _, _ => .error ⟨0, "internal: block fuel exhausted"⟩
  | _ + 1, _, pend, [] =>
    if pend.isEmpty then .ok ([], [])
    else .error ⟨0, "decorator not followed by a function definition"⟩
  | fuel + 1, ind, pend, l :: rest =>
    if l.indent < ind then
      if pend.isEmpty then .ok ([], l :: rest)
      else .error ⟨l.lineNo, "decorator not followed by a function definition"⟩
    else if ind < l.indent then .error ⟨l.lineNo, "unexpected indent"⟩
    else
      match classify l.toks with
      | .error msg => .error ⟨l.lineNo, msg⟩
      | .ok (.decoratorLine d) => parseBlockF fuel ind (pend ++ [d]) rest
      | .ok (.defLine n ps ret) =>
        match rest with
        | [] => .error ⟨l.lineNo, "expected an indented block"⟩
        | b :: _ =>
          if b.indent ≤ ind then .error ⟨l.lineNo, "expected an indented block"⟩
          else
            match parseBlockF fuel b.indent [] rest with
            | .error e => .error e
            | .ok (body, rest') =>
              match parseBlockF fuel ind [] rest' with
              | .error e => .error e
              | .ok (stmts, rem) =>
                .ok (.funcDef n pend ps ret body :: stmts, rem)
      | .ok (.simple s) =>
        if pend.isEmpty then
          match rest with
          | b :: _ =>
            if ind < b.indent then
              match s with
              | .other _ =>
                match parseBlockF fuel b.indent [] rest with
                | .error e => .error e
                | .ok (sub, rest') =>
                  match parseBlockF fuel ind [] rest' with
                  | .error e => .error e
                  | .ok (stmts, rem) => .ok (.other sub :: stmts, rem)
              | _ => .error ⟨b.lineNo, "unexpected indent"⟩
            else
              match parseBlockF fuel ind [] rest with
              | .error e => .error e
              | .ok (stmts, rem) => .ok (s :: stmts, rem)
          | [] => .ok ([s], [])
        else .error ⟨l.lineNo, "decorator not followed by a function definition"⟩

/-- Accept a block-parse result covering the whole module. -/
def finishParse : Except ParseError (List PyStmt × List LLine) →
    Except ParseError (List PyStmt)
  | .error e => .error e
  | .ok (stmts, []) => .ok stmts
  | .ok (_, r :: _) => .error ⟨r.lineNo, "unexpected dedent"⟩

/-- Parse a module: the whole tokenized line sequence at indentation zero,
requiring every line to be consumed. -/
def parseLines (lls : List LLine) : Except ParseError (List PyStmt) :=
  match lls with
  | [] => .ok []
  | l :: _ =>
    if l.indent ≠ 0 then .error ⟨l.lineNo, "unexpected indent"⟩
    else finishParse (parseBlockF (lls.length + 1) 0 [] lls)


/-! ## MetadataExtractor -/

/-- Modelled from the spec: the docstring is the first string literal
statement of the function body, absent otherwise. -/
def firstDocstring : List PyStmt → Option String
  | .strLit s :: _ => some s
  | _ => none

/-- Modelled from the spec: one FunctionRecord per function definition at
any scope depth, in source order; decorator names are copied as written,
never re-sorted; nested definitions are walked independently at their own
scope.  Fueled: every recursive call walks strictly fewer statements, so
fuel no smaller than the total statement count suffices. -/
def extractRecordsF : Nat → List PyStmt → List FunctionRecord
  | 0, _ => []
  | _ + 1, [] => []
  | fuel + 1, .funcDef n decs ps ret body :: rest =>
    ⟨n, decs, firstDocstring body, ps, ret⟩ ::
      (extractRecordsF fuel body ++ extractRecordsF fuel rest)
  | fuel + 1, .other sub :: rest =>
    extractRecordsF fuel sub ++ extractRecordsF fuel rest
  | fuel + 1, .strLit _ :: rest => extractRecordsF fuel rest
  | fuel + 1, .importFrom _ _ :: rest => extractRecordsF fuel rest
  | fuel + 1, .importMod _ _ :: rest => extractRecordsF fuel rest

/-- Extract records of the parsed statements of tokenized lines.  Every
statement stems from one logical line, so the line count bounds the
walker's fuel. -/
def extractFromLines (lls : List LLine) : Except ParseError (List FunctionRecord) :=
  (parseLines lls).map (extractRecordsF (lls.length + 1))

/-- Modelled from the spec: MetadataExtractor, raw text to FunctionRecord
sequence, failing the whole source unit on a ParseError. -/
def extractFunctions (src : String) : Except ParseError (List FunctionRecord) :=
  Except.bind (splitLogicalLines src) (fun raws =>
    Except.bind (tokenizeLines raws) extractFromLines)

/-! ## ImportResolver -/

/-- Whether a module path is relative, i.e. starts with a dot. -/
def startsWithDot (m : String) : Bool :=
  match m.data with
  | '.' :: _ => true
  | _ => false

/-- Modelled from the spec: the binding of one from-import item: an alias
`X as Y` binds local_name Y with origin_symbol X; `is_relative` records a
dot-prefixed origin module. -/
def itemBinding (m : String) (item : String × Option String) : ImportBinding :=
  { local_name := item.2.getD item.1
    origin_module := m
    origin_symbol := some item.1
    is_relative := startsWithDot m }

/-- Modelled from the spec: collect ImportBindings from every import
statement, at any scope depth, in source order.  Fueled like the record
walker. -/
def collectBindingsF : Nat → List PyStmt → List ImportBinding
  | 0, _ => []
  | _ + 1, [] => []
  | fuel + 1, .importFrom m items :: rest =>
    items.map (itemBinding m) ++ collectBindingsF fuel rest
  | fuel + 1, .importMod m a :: rest =>
    { local_name := a.getD m, origin_module := m, origin_symbol := none,
      is_relative := startsWithDot m } :: collectBindingsF fuel rest
  | fuel + 1, .funcDef _ _ _ _ body :: rest =>
    collectBindingsF fuel body ++ collectBindingsF fuel rest
  | fuel + 1, .other sub :: rest =>
    collectBindingsF fuel sub ++ collectBindingsF fuel rest
  | fuel + 1, .strLit _ :: rest => collectBindingsF fuel rest

/-- Collect the bindings of the parsed statements of tokenized lines. -/
def resolveFromLines (lls : List LLine) : Except ParseError (List ImportBinding) :=
  (parseLines lls).map (collectBindingsF (lls.length + 1))

/-- Modelled from the spec: ImportResolver, raw text to the ordered
ImportBinding sequence. -/
def resolveImports (src : String) : Except ParseError (List ImportBinding) :=
  Except.bind (splitLogicalLines src) (fun raws =>
    Except.bind (tokenizeLines raws) resolveFromLines)

/-- Look up the first binding of a local name. -/
def bindingOf (bs : List ImportBinding) (n : String) : Option ImportBinding :=
  bs.find? (fun b => b.local_name == n)

/-- Look up the first record of a function name. -/
def recordNamed (recs : List FunctionRecord) (n : String) : Option FunctionRecord :=
  recs.find? (fun r => r.name == n)

/-! ## Fixture sources, transcribed verbatim from the repository -/

/-- The fixture file decorators.py, transcribed verbatim. -/
def decoratorsPy : String :=
  String.intercalate "\n" [
    "\"\"\"",
    "Decorator examples for testing decorator extraction.",
    "",
    "This module contains functions with decorators to test",
    "the decorator_names metadata field extraction.",
    "\"\"\"",
    "",
    "from functools import wraps",
    "from typing import Callable, Any",
    "",
    "",
    "def log_call(func: Callable) -> Callable:",
    "    \"\"\"",
    "    Logging decorator that prints function calls.",
    "    \"\"\"",
    "    @wraps(func)",
    "    def wrapper(*args: Any, **kwargs: Any) -> Any:",
    "        print(f\"Calling \x7bfunc.__name__\x7d\")",
    "        result = func(*args, **kwargs)",
    "        print(f\"Finished \x7bfunc.__name__\x7d\")",
    "        return result",
    "    return wrapper",
    "",
    "",
    "def validate_input(func: Callable) -> Callable:",
    "    \"\"\"",
    "    Input validation decorator.",
    "    \"\"\"",
    "    @wraps(func)",
    "    def wrapper(*args: Any, **kwargs: Any) -> Any:",
    "        for arg in args:",
    "            if arg is None:",
    "                raise ValueError(\"None values not allowed\")",
    "        return func(*args, **kwargs)",
    "    return wrapper",
    "",
    "",
    "def retry(times: int = 3):",
    "    \"\"\"",
    "    Retry decorator with configurable attempts.",
    "    \"\"\"",
    "    def decorator(func: Callable) -> Callable:",
    "        @wraps(func)",
    "        def wrapper(*args: Any, **kwargs: Any) -> Any:",
    "            for i in range(times):",
    "                try:",
    "                    return func(*args, **kwargs)",
    "                except Exception:",
    "                    if i == times - 1:",
    "                        raise",
    "        return wrapper",
    "    return decorator",
    "",
    "",
    "@log_call",
    "def process_data(data: dict) -> dict:",
    "    \"\"\"",
    "    Process incoming data with logging.",
    "    Single decorator example.",
    "    \"\"\"",
    "    return \x7b\"processed\": True, **data\x7d",
    "",
    "",
    "@log_call",
    "@validate_input",
    "def transform_value(value: str) -> str:",
    "    \"\"\"",
    "    Transform a value with multiple decorators.",
    "    Tests multiple decorator extraction.",
    "    \"\"\"",
    "    return value.upper()",
    "",
    "",
    "@retry(times=5)",
    "def fetch_remote_data(url: str) -> dict:",
    "    \"\"\"",
    "    Fetch data from remote URL with retry.",
    "    Tests decorator with arguments.",
    "    \"\"\"",
    "    # Simulated fetch",
    "    return \x7b\"url\": url, \"data\": \"fetched\"\x7d",
    "",
    "",
    "@log_call",
    "@validate_input",
    "@retry(times=3)",
    "def complex_operation(input_data: dict) -> dict:",
    "    \"\"\"",
    "    Complex operation with multiple decorators.",
    "    Tests extraction of many decorators.",
    "    \"\"\"",
    "    return \x7b\"result\": \"success\", \"input\": input_data\x7d",
    "",
    "",
    "def plain_function(x: int, y: int) -> int:",
    "    \"\"\"",
    "    A plain function without decorators.",
    "    Should have empty decorator_names.",
    "    \"\"\"",
    "    return x + y",
    "",
    ""
  ]

/-- The fixture file python_imports.py, transcribed verbatim. -/
def pythonImportsPy : String :=
  String.intercalate "\n" [
    "\"\"\"",
    "Fixture for refs extraction: multi-line Python imports (parenthesized).",
    "\"\"\"",
    "",
    "from math import (",
    "    sqrt,",
    "    pow as power,",
    ")",
    "from .local_module import LocalThing",
    "",
    "",
    "def compute(x: float) -> float:",
    "    return sqrt(x) + power(x, 2)"
  ]

/-- The fixture file math.py, transcribed verbatim. -/
def mathPy : String :=
  String.intercalate "\n" [
    "\"\"\"Mathematical operations for calculating numbers.\"\"\"",
    "",
    "",
    "def add_two_numbers(a: int, b: int) -> int:",
    "    \"\"\"Add two numbers together and return the sum.\"\"\"",
    "    return a + b",
    "",
    "",
    "def subtract(a: int, b: int) -> int:",
    "    \"\"\"Subtract b from a and return the difference.\"\"\"",
    "    return a - b",
    "",
    "",
    "def multiply(a: int, b: int) -> int:",
    "    \"\"\"Multiply two numbers and return the product.\"\"\"",
    "    return a * b",
    "",
    ""
  ]

/-! ## Expected pipeline outputs on the fixtures, stated explicitly -/

/-- The logical lines of decorators.py: starting physical line and text. -/
def decoratorsRawPairs : List (Nat × String) := [(1, "\"\"\"\nDecorator examples for testing decorator extraction.\n\nThis module contains functions with decorators to test\nthe decorator_names metadata field extraction.\n\"\"\""), (8, "from functools import wraps"), (9, "from typing import Callable, Any"), (12, "def log_call(func: Callable) -> Callable:"), (13, "    \"\"\"\n    Logging decorator that prints function calls.\n    \"\"\""), (16, "    @wraps(func)"), (17, "    def wrapper(*args: Any, **kwargs: Any) -> Any:"), (18, "        print(f\"Calling \x7bfunc.__name__\x7d\")"), (19, "        result = func(*args, **kwargs)"), (20, "        print(f\"Finished \x7bfunc.__name__\x7d\")"), (21, "        return result"), (22, "    return wrapper"), (25, "def validate_input(func: Callable) -> Callable:"), (26, "    \"\"\"\n    Input validation decorator.\n    \"\"\""), (29, "    @wraps(func)"), (30, "    def wrapper(*args: Any, **kwargs: Any) -> Any:"), (31, "        for arg in args:"), (32, "            if arg is None:"), (33, "                raise ValueError(\"None values not allowed\")"), (34, "        return func(*args, **kwargs)"), (35, "    return wrapper"), (38, "def retry(times: int = 3):"), (39, "    \"\"\"\n    Retry decorator with configurable attempts.\n    \"\"\""), (42, "    def decorator(func: Callable) -> Callable:"), (43, "        @wraps(func)"), (44, "        def wrapper(*args: Any, **kwargs: Any) -> Any:"), (45, "            for i in range(times):"), (46, "                try:"), (47, "                    return func(*args, **kwargs)"), (48, "                except Exception:"), (49, "                    if i == times - 1:"), (50, "                        raise"), (51, "        return wrapper"), (52, "    return decorator"), (55, "@log_call"), (56, "def process_data(data: dict) -> dict:"), (57, "    \"\"\"\n    Process incoming data with logging.\n    Single decorator example.\n    \"\"\""), (61, "    return \x7b\"processed\": True, **data\x7d"), (64, "@log_call"), (65, "@validate_input"), (66, "def transform_value(value: str) -> str:"), (67, "    \"\"\"\n    Transform a value with multiple decorators.\n    Tests multiple decorator extraction.\n    \"\"\""), (71, "    return value.upper()"), (74, "@retry(times=5)"), (75, "def fetch_remote_data(url: str) -> dict:"), (76, "    \"\"\"\n    Fetch data from remote URL with retry.\n    Tests decorator with arguments.\n    \"\"\""), (81, "    return \x7b\"url\": url, \"data\": \"fetched\"\x7d"), (84, "@log_call"), (85, "@validate_input"), (86, "@retry(times=3)"), (87, "def complex_operation(input_data: dict) -> dict:"), (88, "    \"\"\"\n    Complex operation with multiple decorators.\n    Tests extraction of many decorators.\n    \"\"\""), (92, "    return \x7b\"result\": \"success\", \"input\": input_data\x7d"), (95, "def plain_function(x: int, y: int) -> int:"), (96, "    \"\"\"\n    A plain function without decorators.\n    Should have empty decorator_names.\n    \"\"\""), (100, "    return x + y")]

/-- The logical lines of decorators.py as RawLines. -/
def decoratorsRaws : List RawLine := decoratorsRawPairs.map (fun p => ⟨p.1, p.2.data⟩)

/-- The tokenized logical lines of decorators.py. -/
def decoratorsLines : List LLine := [{ lineNo := 1, indent := 0, toks := [Tok.strTok "\nDecorator examples for testing decorator extraction.\n\nThis module contains functions with decorators to test\nthe decorator_names metadata field extraction.\n"] }, { lineNo := 8, indent := 0, toks := [Tok.ident "from", Tok.ident "functools", Tok.ident "import", Tok.ident "wraps"] }, { lineNo := 9, indent := 0, toks := [Tok.ident "from", Tok.ident "typing", Tok.ident "import", Tok.ident "Callable", Tok.comma, Tok.ident "Any"] }, { lineNo := 12, indent := 0, toks := [Tok.ident "def", Tok.ident "log_call", Tok.lparen, Tok.ident "func", Tok.colon, Tok.ident "Callable", Tok.rparen, Tok.arrow, Tok.ident "Callable", Tok.colon] }, { lineNo := 13, indent := 4, toks := [Tok.strTok "\n    Logging decorator that prints function calls.\n    "] }, { lineNo := 16, indent := 4, toks := [Tok.atSign, Tok.ident "wraps", Tok.lparen, Tok.ident "func", Tok.rparen] }, { lineNo := 17, indent := 4, toks := [Tok.ident "def", Tok.ident "wrapper", Tok.lparen, Tok.star, Tok.ident "args", Tok.colon, Tok.ident "Any", Tok.comma, Tok.star, Tok.star, Tok.ident "kwargs", Tok.colon, Tok.ident "Any", Tok.rparen, Tok.arrow, Tok.ident "Any", Tok.colon] }, { lineNo := 18, indent := 8, toks := [Tok.ident "print", Tok.lparen, Tok.ident "f", Tok.strTok "Calling \x7bfunc.__name__\x7d", Tok.rparen] }, { lineNo := 19, indent := 8, toks := [Tok.ident "result", Tok.eqSign, Tok.ident "func", Tok.lparen, Tok.star, Tok.ident "args", Tok.comma, Tok.star, Tok.star, Tok.ident "kwargs", Tok.rparen] }, { lineNo := 20, indent := 8, toks := [Tok.ident "print", Tok.lparen, Tok.ident "f", Tok.strTok "Finished \x7bfunc.__name__\x7d", Tok.rparen] }, { lineNo := 21, indent := 8, toks := [Tok.ident "return", Tok.ident "result"] }, { lineNo := 22, indent := 4, toks := [Tok.ident "return", Tok.ident "wrapper"] }, { lineNo := 25, indent := 0, toks := [Tok.ident "def", Tok.ident "validate_input", Tok.lparen, Tok.ident "func", Tok.colon, Tok.ident "Callable", Tok.rparen, Tok.arrow, Tok.ident "Callable", Tok.colon] }, { lineNo := 26, indent := 4, toks := [Tok.strTok "\n    Input validation decorator.\n    "] }, { lineNo := 29, indent := 4, toks := [Tok.atSign, Tok.ident "wraps", Tok.lparen, Tok.ident "func", Tok.rparen] }, { lineNo := 30, indent := 4, toks := [Tok.ident "def", Tok.ident "wrapper", Tok.lparen, Tok.star, Tok.ident "args", Tok.colon, Tok.ident "Any", Tok.comma, Tok.star, Tok.star, Tok.ident "kwargs", Tok.colon, Tok.ident "Any", Tok.rparen, Tok.arrow, Tok.ident "Any", Tok.colon] }, { lineNo := 31, indent := 8, toks := [Tok.ident "for", Tok.ident "arg", Tok.ident "in", Tok.ident "args", Tok.colon] }, { lineNo := 32, indent := 12, toks := [Tok.ident "if", Tok.ident "arg", Tok.ident "is", Tok.ident "None", Tok.colon] }, { lineNo := 33, indent := 16, toks := [Tok.ident "raise", Tok.ident "ValueError", Tok.lparen, Tok.strTok "None values not allowed", Tok.rparen] }, { lineNo := 34, indent := 8, toks := [Tok.ident "return", Tok.ident "func", Tok.lparen, Tok.star, Tok.ident "args", Tok.comma, Tok.star, Tok.star, Tok.ident "kwargs", Tok.rparen] }, { lineNo := 35, indent := 4, toks := [Tok.ident "return", Tok.ident "wrapper"] }, { lineNo := 38, indent := 0, toks := [Tok.ident "def", Tok.ident "retry", Tok.lparen, Tok.ident "times", Tok.colon, Tok.ident "int", Tok.eqSign, Tok.ident "3", Tok.rparen, Tok.colon] }, { lineNo := 39, indent := 4, toks := [Tok.strTok "\n    Retry decorator with configurable attempts.\n    "] }, { lineNo := 42, indent := 4, toks := [Tok.ident "def", Tok.ident "decorator", Tok.lparen, Tok.ident "func", Tok.colon, Tok.ident "Callable", Tok.rparen, Tok.arrow, Tok.ident "Callable", Tok.colon] }, { lineNo := 43, indent := 8, toks := [Tok.atSign, Tok.ident "wraps", Tok.lparen, Tok.ident "func", Tok.rparen] }, { lineNo := 44, indent := 8, toks := [Tok.ident "def", Tok.ident "wrapper", Tok.lparen, Tok.star, Tok.ident "args", Tok.colon, Tok.ident "Any", Tok.comma, Tok.star, Tok.star, Tok.ident "kwargs", Tok.colon, Tok.ident "Any", Tok.rparen, Tok.arrow, Tok.ident "Any", Tok.colon] }, { lineNo := 45, indent := 12, toks := [Tok.ident "for", Tok.ident "i", Tok.ident "in", Tok.ident "range", Tok.lparen, Tok.ident "times", Tok.rparen, Tok.colon] }, { lineNo := 46, indent := 16, toks := [Tok.ident "try", Tok.colon] }, { lineNo := 47, indent := 20, toks := [Tok.ident "return", Tok.ident "func", Tok.lparen, Tok.star, Tok.ident "args", Tok.comma, Tok.star, Tok.star, Tok.ident "kwargs", Tok.rparen] }, { lineNo := 48, indent := 16, toks := [Tok.ident "except", Tok.ident "Exception", Tok.colon] }, { lineNo := 49, indent := 20, toks := [Tok.ident "if", Tok.ident "i", Tok.eqSign, Tok.eqSign, Tok.ident "times", Tok.otherTok '-', Tok.ident "1", Tok.colon] }, { lineNo := 50, indent := 24, toks := [Tok.ident "raise"] }, { lineNo := 51, indent := 8, toks := [Tok.ident "return", Tok.ident "wrapper"] }, { lineNo := 52, indent := 4, toks := [Tok.ident "return", Tok.ident "decorator"] }, { lineNo := 55, indent := 0, toks := [Tok.atSign, Tok.ident "log_call"] }, { lineNo := 56, indent := 0, toks := [Tok.ident "def", Tok.ident "process_data", Tok.lparen, Tok.ident "data", Tok.colon, Tok.ident "dict", Tok.rparen, Tok.arrow, Tok.ident "dict", Tok.colon] }, { lineNo := 57, indent := 4, toks := [Tok.strTok "\n    Process incoming data with logging.\n    Single decorator example.\n    "] }, { lineNo := 61, indent := 4, toks := [Tok.ident "return", Tok.otherTok '\x7b', Tok.strTok "processed", Tok.colon, Tok.ident "True", Tok.comma, Tok.star, Tok.star, Tok.ident "data", Tok.otherTok '\x7d'] }, { lineNo := 64, indent := 0, toks := [Tok.atSign, Tok.ident "log_call"] }, { lineNo := 65, indent := 0, toks := [Tok.atSign, Tok.ident "validate_input"] }, { lineNo := 66, indent := 0, toks := [Tok.ident "def", Tok.ident "transform_value", Tok.lparen, Tok.ident "value", Tok.colon, Tok.ident "str", Tok.rparen, Tok.arrow, Tok.ident "str", Tok.colon] }, { lineNo := 67, indent := 4, toks := [Tok.strTok "\n    Transform a value with multiple decorators.\n    Tests multiple decorator extraction.\n    "] }, { lineNo := 71, indent := 4, toks := [Tok.ident "return", Tok.ident "value", Tok.dot, Tok.ident "upper", Tok.lparen, Tok.rparen] }, { lineNo := 74, indent := 0, toks := [Tok.atSign, Tok.ident "retry", Tok.lparen, Tok.ident "times", Tok.eqSign, Tok.ident "5", Tok.rparen] }, { lineNo := 75, indent := 0, toks := [Tok.ident "def", Tok.ident "fetch_remote_data", Tok.lparen, Tok.ident "url", Tok.colon, Tok.ident "str", Tok.rparen, Tok.arrow, Tok.ident "dict", Tok.colon] }, { lineNo := 76, indent := 4, toks := [Tok.strTok "\n    Fetch data from remote URL with retry.\n    Tests decorator with arguments.\n    "] }, { lineNo := 81, indent := 4, toks := [Tok.ident "return", Tok.otherTok '\x7b', Tok.strTok "url", Tok.colon, Tok.ident "url", Tok.comma, Tok.strTok "data", Tok.colon, Tok.strTok "fetched", Tok.otherTok '\x7d'] }, { lineNo := 84, indent := 0, toks := [Tok.atSign, Tok.ident "log_call"] }, { lineNo := 85, indent := 0, toks := [Tok.atSign, Tok.ident "validate_input"] }, { lineNo := 86, indent := 0, toks := [Tok.atSign, Tok.ident "retry", Tok.lparen, Tok.ident "times", Tok.eqSign, Tok.ident "3", Tok.rparen] }, { lineNo := 87, indent := 0, toks := [Tok.ident "def", Tok.ident "complex_operation", Tok.lparen, Tok.ident "input_data", Tok.colon, Tok.ident "dict", Tok.rparen, Tok.arrow, Tok.ident "dict", Tok.colon] }, { lineNo := 88, indent := 4, toks := [Tok.strTok "\n    Complex operation with multiple decorators.\n    Tests extraction of many decorators.\n    "] }, { lineNo := 92, indent := 4, toks := [Tok.ident "return", Tok.otherTok '\x7b', Tok.strTok "result", Tok.colon, Tok.strTok "success", Tok.comma, Tok.strTok "input", Tok.colon, Tok.ident "input_data", Tok.otherTok '\x7d'] }, { lineNo := 95, indent := 0, toks := [Tok.ident "def", Tok.ident "plain_function", Tok.lparen, Tok.ident "x", Tok.colon, Tok.ident "int", Tok.comma, Tok.ident "y", Tok.colon, Tok.ident "int", Tok.rparen, Tok.arrow, Tok.ident "int", Tok.colon] }, { lineNo := 96, indent := 4, toks := [Tok.strTok "\n    A plain function without decorators.\n    Should have empty decorator_names.\n    "] }, { lineNo := 100, indent := 4, toks := [Tok.ident "return", Tok.ident "x", Tok.otherTok '+', Tok.ident "y"] }]

/-- The function records of decorators.py. -/
def decoratorsRecords : List FunctionRecord := [{ name := "log_call", decorator_names := [], docstring := some "\n    Logging decorator that prints function calls.\n    ", parameters := [{ name := "func", ty := some "Callable" }], return_type := some "Callable" }, { name := "wrapper", decorator_names := ["wraps"], docstring := none, parameters := [{ name := "args", ty := some "Any" }, { name := "kwargs", ty := some "Any" }], return_type := some "Any" }, { name := "validate_input", decorator_names := [], docstring := some "\n    Input validation decorator.\n    ", parameters := [{ name := "func", ty := some "Callable" }], return_type := some "Callable" }, { name := "wrapper", decorator_names := ["wraps"], docstring := none, parameters := [{ name := "args", ty := some "Any" }, { name := "kwargs", ty := some "Any" }], return_type := some "Any" }, { name := "retry", decorator_names := [], docstring := some "\n    Retry decorator with configurable attempts.\n    ", parameters := [{ name := "times", ty := some "int" }], return_type := none }, { name := "decorator", decorator_names := [], docstring := none, parameters := [{ name := "func", ty := some "Callable" }], return_type := some "Callable" }, { name := "wrapper", decorator_names := ["wraps"], docstring := none, parameters := [{ name := "args", ty := some "Any" }, { name := "kwargs", ty := some "Any" }], return_type := some "Any" }, { name := "process_data", decorator_names := ["log_call"], docstring := some "\n    Process incoming data with logging.\n    Single decorator example.\n    ", parameters := [{ name := "data", ty := some "dict" }], return_type := some "dict" }, { name := "transform_value", decorator_names := ["log_call", "validate_input"], docstring := some "\n    Transform a value with multiple decorators.\n    Tests multiple decorator extraction.\n    ", parameters := [{ name := "value", ty := some "str" }], return_type := some "str" }, { name := "fetch_remote_data", decorator_names := ["retry"], docstring := some "\n    Fetch data from remote URL with retry.\n    Tests decorator with arguments.\n    ", parameters := [{ name := "url", ty := some "str" }], return_type := some "dict" }, { name := "complex_operation", decorator_names := ["log_call", "validate_input", "retry"], docstring := some "\n    Complex operation with multiple decorators.\n    Tests extraction of many decorators.\n    ", parameters := [{ name := "input_data", ty := some "dict" }], return_type := some "dict" }, { name := "plain_function", decorator_names := [], docstring := some "\n    A plain function without decorators.\n    Should have empty decorator_names.\n    ", parameters := [{ name := "x", ty := some "int" }, { name := "y", ty := some "int" }], return_type := some "int" }]

/-- The function records of math.py. -/
def mathRecords : List FunctionRecord := [{ name := "add_two_numbers", decorator_names := [], docstring := some "Add two numbers together and return the sum.", parameters := [{ name := "a", ty := some "int" }, { name := "b", ty := some "int" }], return_type := some "int" }, { name := "subtract", decorator_names := [], docstring := some "Subtract b from a and return the difference.", parameters := [{ name := "a", ty := some "int" }, { name := "b", ty := some "int" }], return_type := some "int" }, { name := "multiply", decorator_names := [], docstring := some "Multiply two numbers and return the product.", parameters := [{ name := "a", ty := some "int" }, { name := "b", ty := some "int" }], return_type := some "int" }]

/-- The function records of python_imports.py. -/
def pythonImportsRecords : List FunctionRecord := [{ name := "compute", decorator_names := [], docstring := none, parameters := [{ name := "x", ty := some "float" }], return_type := some "float" }]

/-- The import bindings of python_imports.py. -/
def pythonImportsBindings : List ImportBinding := [{ local_name := "sqrt", origin_module := "math", origin_symbol := some "sqrt", is_relative := false }, { local_name := "power", origin_module := "math", origin_symbol := some "pow", is_relative := false }, { local_name := "LocalThing", origin_module := ".local_module", origin_symbol := some "LocalThing", is_relative := true }]

/-- The import bindings of decorators.py. -/
def decoratorsBindings : List ImportBinding := [{ local_name := "wraps", origin_module := "functools", origin_symbol := some "wraps", is_relative := false }, { local_name := "Callable", origin_module := "typing", origin_symbol := some "Callable", is_relative := false }, { local_name := "Any", origin_module := "typing", origin_symbol := some "Any", is_relative := false }]


/-! ## Auxiliary sources and token shapes used by the claims -/

/-- The multi-line parenthesized from-import of python_imports.py
lines 5-8, as a standalone source. -/
def multiLineImportSrc : String :=
  String.intercalate "\n" ["from math import (", "    sqrt,", "    pow as power,", ")"]

/-- The single-line equivalent of the same import. -/
def singleLineImportSrc : String :=
  "from math import sqrt, pow as power"

/-- A source whose fourth line is not parseable as a function definition. -/
def malformedSrc : String :=
  String.intercalate "\n"
    ["def good():", "    return 1", "", "def bad x():", "    return 2"]

/-- Tokens of a bare header line `def fname():`. -/
def defHeaderToks (fname : String) : List Tok :=
  [.ident "def", .ident fname, .lparen, .rparen, .colon]

/-- A minimal body line `pass` at indentation four. -/
def passLine (m : Nat) : LLine := ⟨m, 4, [.ident "pass"]⟩

/-- A decorator line `@d` at indentation zero. -/
def decLLine (n : Nat) (d : String) : LLine := ⟨n, 0, [.atSign, .ident d]⟩

/-! ## The retry fixture (decorators.py lines 38-52), embedded from source

`retry(times)` returns a decorator whose wrapper runs
`for i in range(times)`: each iteration calls `func`; on an exception the
wrapper re-raises when `i == times - 1` and otherwise retries; falling out
of the loop returns Python's implicit None.  A callable is modelled by the
outcome of each of its calls (`func i` is the i-th call's result); the
wrapper run is modelled as the final outcome paired with how many calls
were made. -/

/-- A Python call outcome: a returned value (`none` is Python None) or a
propagated exception. -/
inductive PyOutcome (E A : Type) where
  | val (a : Option A)
  | exc (e : E)
deriving DecidableEq, Repr

/-- The loop of retry's wrapper: `i` is the current iteration index, the
second argument the number of remaining iterations of `range(times)`. -/
def retryGo {E A : Type} (times : Int) (func : Nat → Except E A) :
    Nat → Nat → PyOutcome E A × Nat
  | _, 0 => (.val none, 0)
  | i, r + 1 =>
    match func i with
    | .ok a => (.val (some a), 1)
    | .error e =>
      if (i : Int) = times - 1 then (.exc e, 1)
      else
        match retryGo times func (i + 1) r with
        | (res, n) => (res, n + 1)

/-- One run of the wrapper produced by `retry(times)(func)`. -/
def retryRun {E A : Type} (times : Int) (func : Nat → Except E A) :
    PyOutcome E A × Nat :=
  retryGo times func 0 times.toNat

end VibeRag

deriving instance DecidableEq for Except

namespace VibeRag

/-! ## Evaluation lemmas: the pipeline on the fixture sources

The decorators.py pipeline is verified in stages (logical lines, tokens,
records) so that each kernel evaluation starts from explicit data. -/

theorem bind_ok_eq {ε α β : Type} (a : α) (f : α → Except ε β) :
    Except.bind (.ok a) f = f a := rfl

set_option maxRecDepth 8000 in
theorem splitLogical_decoratorsPy :
    splitLogicalLines decoratorsPy = .ok decoratorsRaws := by decide

set_option maxRecDepth 8000 in
theorem tokenizeLines_decoratorsPy :
    tokenizeLines decoratorsRaws = .ok decoratorsLines := by decide

set_option maxRecDepth 8000 in
theorem extractFromLines_decoratorsPy :
    extractFromLines decoratorsLines = .ok decoratorsRecords := by decide

theorem extractFunctions_decoratorsPy :
    extractFunctions decoratorsPy = .ok decoratorsRecords := by
  simp only [extractFunctions, splitLogical_decoratorsPy, bind_ok_eq,
    tokenizeLines_decoratorsPy, extractFromLines_decoratorsPy]

set_option maxRecDepth 8000 in
theorem resolveFromLines_decoratorsPy :
    resolveFromLines decoratorsLines = .ok decoratorsBindings := by decide

theorem resolveImports_decoratorsPy :
    resolveImports decoratorsPy = .ok decoratorsBindings := by
  simp only [resolveImports, splitLogical_decoratorsPy, bind_ok_eq,
    tokenizeLines_decoratorsPy, resolveFromLines_decoratorsPy]

set_option maxRecDepth 8000 in
theorem extractFunctions_mathPy :
    extractFunctions mathPy = .ok mathRecords := by decide

set_option maxRecDepth 8000 in
theorem extractFunctions_pythonImportsPy :
    extractFunctions pythonImportsPy = .ok pythonImportsRecords := by decide

set_option maxRecDepth 8000 in
theorem resolveImports_pythonImportsPy :
    resolveImports pythonImportsPy = .ok pythonImportsBindings := by decide


/-! ## General parser and extractor lemmas -/

theorem parseBlock_decorator_step (d : String) (n fuel : Nat)
    (pend : List String) (rest : List LLine) :
    parseBlockF (fuel + 1) 0 pend (decLLine n d :: rest) =
      parseBlockF fuel 0 (pend ++ [d]) rest := rfl

theorem parseBlock_def_block (fname : String) (pend : List String) (n m fuel : Nat) :
    parseBlockF (fuel + 3) 0 pend [⟨n, 0, defHeaderToks fname⟩, passLine m] =
      .ok ([.funcDef fname pend [] none [.other []]], []) := rfl

theorem parseBlock_decorators (names : List String) :
    ∀ (fuel n : Nat) (pend : List String) (rest : List LLine),
      parseBlockF (names.length + (fuel + 1)) 0 pend
        (names.map (decLLine n) ++ rest) =
      parseBlockF (fuel + 1) 0 (pend ++ names) rest := by
  induction names with
  | nil => intro fuel n pend rest; simp
  | cons d ds ih =>
    intro fuel n pend rest
    have h1 : (d :: ds).length + (fuel + 1) = (ds.length + (fuel + 1)) + 1 := by
      simp only [List.length_cons]; omega
    rw [List.map_cons, List.cons_append, h1, parseBlock_decorator_step, ih]
    simp

theorem extractRecordsF_nil (fuel : Nat) : extractRecordsF fuel [] = [] := by
  cases fuel <;> rfl

theorem extractRecordsF_single (fuel : Nat) (fname : String) (names : List String) :
    extractRecordsF (fuel + 1) [.funcDef fname names [] none [.other []]] =
      [⟨fname, names, none, [], none⟩] := by
  cases fuel with
  | zero => rfl
  | succ k => simp [extractRecordsF, extractRecordsF_nil, firstDocstring]

theorem parseLines_cons (l : LLine) (rest : List LLine) (h : l.indent = 0) :
    parseLines (l :: rest) =
      finishParse (parseBlockF ((l :: rest).length + 1) 0 [] (l :: rest)) := by
  simp [parseLines, h]

/-- Decorator lines written above a definition surface in the record in
source top-to-bottom order, never re-sorted. -/
theorem extractFromLines_decorated (names : List String) (fname : String) (n m : Nat) :
    extractFromLines
        (names.map (decLLine n) ++ [⟨n, 0, defHeaderToks fname⟩, passLine m]) =
      .ok [⟨fname, names, none, [], none⟩] := by
  cases names with
  | nil => rfl
  | cons d ds =>
    unfold extractFromLines
    rw [List.map_cons, List.cons_append]
    rw [parseLines_cons _ _ rfl]
    have hf :
        (decLLine n d :: (List.map (decLLine n) ds ++
          [(⟨n, 0, defHeaderToks fname⟩ : LLine), passLine m])).length + 1 =
        (d :: ds).length + (2 + 1) := by
      simp
    rw [hf]
    rw [show decLLine n d :: (List.map (decLLine n) ds ++
          [(⟨n, 0, defHeaderToks fname⟩ : LLine), passLine m]) =
        List.map (decLLine n) (d :: ds) ++
          [(⟨n, 0, defHeaderToks fname⟩ : LLine), passLine m] from by simp]
    rw [parseBlock_decorators (d :: ds) 2 n []]
    rw [List.nil_append]
    rw [show (2 + 1 : Nat) = 0 + 3 from rfl]
    rw [parseBlock_def_block fname (d :: ds) n m 0]
    simp only [finishParse, Except.map]
    rw [show (d :: ds).length + (2 + 1) = ((d :: ds).length + 2) + 1 from by omega]
    rw [extractRecordsF_single]

/-- A parenthesized item list parses exactly like the bare list. -/
theorem parseItems_paren (its : List Tok) :
    parseImportItems (.lparen :: (its ++ [.rparen])) = parseItems its := by
  simp [parseImportItems, List.getLast?_concat, List.dropLast_concat]

/-- A decorator call line records only the callee name, whatever the
argument tokens. -/
theorem classify_decorator_call (d : String) (args : List Tok) :
    classify (.atSign :: .ident d :: .lparen :: args) = .ok (.decoratorLine d) := rfl

theorem countDots_replicate (k : Nat) (x : String) (ts : List Tok) :
    countDots (List.replicate k Tok.dot ++ (.ident x :: ts)) = (k, .ident x :: ts) := by
  induction k with
  | zero => rfl
  | succ j ih => simp [List.replicate_succ, countDots, ih]

/-- A relative from-import keeps its leading dots in the origin module. -/
theorem classify_relative (k : Nat) (mname sym : String) (hm : mname ≠ "import") :
    classify (.ident "from" ::
        (List.replicate (k + 1) Tok.dot ++ [.ident mname, .ident "import", .ident sym])) =
      .ok (.simple (.importFrom
        (String.mk (List.replicate (k + 1) '.') ++ mname) [(sym, none)])) := by
  rw [List.replicate_succ, List.cons_append]
  simp only [classify, countDots, countDots_replicate]
  simp [hm, parseDotted, parseDottedRest, parseImportItems, parseItems, List.replicate_succ]

/-- When every attempt raises, the retry loop re-raises exactly at the last
index and counts one call per remaining iteration. -/
theorem retryGo_allErr {E A : Type} (times : Int) (es : Nat → E) :
    ∀ (r i : Nat), (i : Int) + r = times → 1 ≤ r →
      retryGo (A := A) times (fun j => Except.error (es j)) i r =
        (.exc (es (i + r - 1)), r) := by
  intro r
  induction r with
  | zero => intro i _ h; omega
  | succ r ih =>
    intro i hsum _
    by_cases hi : (i : Int) = times - 1
    · have hr : r = 0 := by omega
      subst hr
      simp [retryGo, hi]
    · have hr : 1 ≤ r := by omega
      have hsum2 : ((i + 1 : Nat) : Int) + r = times := by push_cast; push_cast at hsum; omega
      simp only [retryGo, if_neg hi, ih (i + 1) hsum2 hr]
      have harith : i + 1 + r - 1 = i + (r + 1) - 1 := by omega
      rw [harith]


/-! ## The claims -/

/-- C1: for every function definition preceded by stacked decorator lines,
decorator_names lists the decorator callee names in source top-to-bottom
order (top decorator first), never re-sorted; in particular the fixture
function complex_operation, decorated with log_call, validate_input and
retry with arguments, yields decorator_names
["log_call", "validate_input", "retry"]. -/
theorem claim_C1 :
    (∀ (names : List String) (fname : String) (n m : Nat),
      extractFromLines
          (names.map (decLLine n) ++ [⟨n, 0, defHeaderToks fname⟩, passLine m]) =
        .ok [⟨fname, names, none, [], none⟩]) ∧
    (extractFunctions decoratorsPy).map
        (fun recs => (recordNamed recs "complex_operation").map
          (fun r => r.decorator_names)) =
      .ok (some ["log_call", "validate_input", "retry"]) := by
  refine ⟨extractFromLines_decorated, ?_⟩
  rw [extractFunctions_decoratorsPy]
  decide

/-- C2: a parenthesized multi-line import list is treated identically to
the single-line equivalent (whitespace and newlines inside the parentheses
are insignificant), and an aliased import X as Y binds local_name Y with
origin_symbol X; in particular `pow as power` resolves to local_name
"power" with origin_symbol "pow". -/
theorem claim_C2 :
    (∀ its : List Tok,
      parseImportItems (.lparen :: (its ++ [.rparen])) = parseItems its) ∧
    (∀ (m x y : String),
      itemBinding m (x, some y) = ⟨y, m, some x, startsWithDot m⟩) ∧
    resolveImports multiLineImportSrc = resolveImports singleLineImportSrc ∧
    (resolveImports pythonImportsPy).map (fun bs => bindingOf bs "power") =
      .ok (some ⟨"power", "math", some "pow", false⟩) := by
  refine ⟨parseItems_paren, fun m x y => rfl, by decide, ?_⟩
  rw [resolveImports_pythonImportsPy]
  decide

/-- C3: a relative (dot-prefixed) import records is_relative = true and
keeps the leading dots as part of origin_module; in particular
`from .local_module import LocalThing` resolves with is_relative true and
origin_module ".local_module". -/
theorem claim_C3 :
    (∀ (k : Nat) (mname sym : String), mname ≠ "import" →
      classify (.ident "from" ::
          (List.replicate (k + 1) Tok.dot ++
            [.ident mname, .ident "import", .ident sym])) =
        .ok (.simple (.importFrom
          (String.mk (List.replicate (k + 1) '.') ++ mname) [(sym, none)]))) ∧
    (∀ (m : String) (item : String × Option String), startsWithDot m = true →
      (itemBinding m item).is_relative = true ∧
        (itemBinding m item).origin_module = m) ∧
    (resolveImports pythonImportsPy).map (fun bs => bindingOf bs "LocalThing") =
      .ok (some ⟨"LocalThing", ".local_module", some "LocalThing", true⟩) := by
  refine ⟨classify_relative, fun m item h => ⟨by simp [itemBinding, h], rfl⟩, ?_⟩
  rw [resolveImports_pythonImportsPy]
  decide

/-- C3 witness: the general parts applied at the fixture's own relative
import, hypotheses discharged concretely. -/
theorem claim_C3_witness :
    classify (.ident "from" ::
        (List.replicate 1 Tok.dot ++
          [.ident "local_module", .ident "import", .ident "LocalThing"])) =
      .ok (.simple (.importFrom ".local_module" [("LocalThing", none)])) ∧
    (itemBinding ".local_module" ("LocalThing", none)).is_relative = true ∧
    (itemBinding ".local_module" ("LocalThing", none)).origin_module = ".local_module" :=
  ⟨claim_C3.1 0 "local_module" "LocalThing" (by decide),
    claim_C3.2.1 ".local_module" ("LocalThing", none) (by decide)⟩

/-- C4: a decorator written as a call expression contributes only its
callee base name, whatever the argument tokens; in particular
fetch_remote_data decorated with retry(times=5) yields decorator_names
["retry"]. -/
theorem claim_C4 :
    (∀ (d : String) (args : List Tok),
      classify (.atSign :: .ident d :: .lparen :: args) = .ok (.decoratorLine d)) ∧
    (extractFunctions decoratorsPy).map
        (fun recs => (recordNamed recs "fetch_remote_data").map
          (fun r => r.decorator_names)) =
      .ok (some ["retry"]) := by
  refine ⟨classify_decorator_call, ?_⟩
  rw [extractFunctions_decoratorsPy]
  decide

/-- C5: a function definition with zero decorator lines yields
decorator_names as the present-but-empty list; in particular
plain_function and add_two_numbers (indeed every math.py function) do. -/
theorem claim_C5 :
    (∀ (fname : String) (n m : Nat),
      extractFromLines [⟨n, 0, defHeaderToks fname⟩, passLine m] =
        .ok [⟨fname, [], none, [], none⟩]) ∧
    (extractFunctions decoratorsPy).map
        (fun recs => (recordNamed recs "plain_function").map
          (fun r => r.decorator_names)) =
      .ok (some []) ∧
    (extractFunctions mathPy).map (fun recs => recs.map (fun r => r.decorator_names)) =
      .ok [[], [], []] := by
  refine ⟨fun fname n m => rfl, ?_, ?_⟩
  · rw [extractFunctions_decoratorsPy]; decide
  · rw [extractFunctions_mathPy]; decide

/-- C6: the docstring field equals the first statement of the function body
when that statement is a string literal and is absent otherwise; in
particular process_data carries its leading string literal and compute has
no docstring. -/
theorem claim_C6 :
    (∀ (fuel : Nat) (nm : String) (decs : List String) (ps : List Param)
        (ret : Option String) (body rest : List PyStmt),
      (extractRecordsF (fuel + 1) (.funcDef nm decs ps ret body :: rest)).head? =
        some ⟨nm, decs, firstDocstring body, ps, ret⟩) ∧
    (∀ (s : String) (rest : List PyStmt),
      firstDocstring (.strLit s :: rest) = some s) ∧
    (∀ (st : PyStmt) (rest : List PyStmt), (∀ s : String, st ≠ .strLit s) →
      firstDocstring (st :: rest) = none) ∧
    firstDocstring [] = none ∧
    (extractFunctions decoratorsPy).map
        (fun recs => (recordNamed recs "process_data").map (fun r => r.docstring)) =
      .ok (some (some
        "\n    Process incoming data with logging.\n    Single decorator example.\n    ")) ∧
    (extractFunctions pythonImportsPy).map
        (fun recs => (recordNamed recs "compute").map (fun r => r.docstring)) =
      .ok (some none) := by
  refine ⟨fun _ _ _ _ _ _ _ => rfl, fun _ _ => rfl, ?_, rfl, ?_, ?_⟩
  · intro st rest h
    cases st with
    | strLit s => exact absurd rfl (h s)
    | importFrom m items => rfl
    | importMod m a => rfl
    | funcDef a b c d e => rfl
    | other sub => rfl
  · rw [extractFunctions_decoratorsPy]; decide
  · rw [extractFunctions_pythonImportsPy]; decide

/-- C6 witness: the absent-otherwise part applied to a body whose first
statement is not a string literal. -/
theorem claim_C6_witness :
    firstDocstring [PyStmt.other []] = none :=
  claim_C6.2.2.1 (PyStmt.other []) []
    (fun _ h => PyStmt.noConfusion h)

/-- C7: one FunctionRecord per function definition at any scope depth, in
source order, each nested definition extracted independently at its own
scope; in particular decorators.py yields twelve records in source order,
the wrapper nested in log_call carrying ["wraps"] while log_call itself
has the empty decorator list. -/
theorem claim_C7 :
    (∀ (fuel : Nat) (nm : String) (decs : List String) (ps : List Param)
        (ret : Option String) (body rest : List PyStmt),
      extractRecordsF (fuel + 1) (.funcDef nm decs ps ret body :: rest) =
        ⟨nm, decs, firstDocstring body, ps, ret⟩ ::
          (extractRecordsF fuel body ++ extractRecordsF fuel rest)) ∧
    (extractFunctions decoratorsPy).map
        (fun recs => recs.map (fun r => (r.name, r.decorator_names))) =
      .ok [("log_call", []), ("wrapper", ["wraps"]), ("validate_input", []),
        ("wrapper", ["wraps"]), ("retry", []), ("decorator", []),
        ("wrapper", ["wraps"]), ("process_data", ["log_call"]),
        ("transform_value", ["log_call", "validate_input"]),
        ("fetch_remote_data", ["retry"]),
        ("complex_operation", ["log_call", "validate_input", "retry"]),
        ("plain_function", [])] := by
  refine ⟨fun _ _ _ _ _ _ _ => rfl, ?_⟩
  rw [extractFunctions_decoratorsPy]
  decide

set_option maxRecDepth 8000 in
/-- C8: unparseable syntax signals a ParseError carrying a source location
and fails the whole parse: on a source whose fourth line is malformed, both
walkers report the error at line 4 and no record sequence is produced, the
earlier well-formed function notwithstanding. -/
theorem claim_C8 :
    extractFunctions malformedSrc = .error ⟨4, "malformed function definition"⟩ ∧
    (extractFunctions malformedSrc).isOk = false ∧
    resolveImports malformedSrc = .error ⟨4, "malformed function definition"⟩ := by
  refine ⟨by decide, by decide, by decide⟩

/-- C9: parsing is deterministic and pure: on identical input both the
MetadataExtractor and the ImportResolver yield identical results. -/
theorem claim_C9 :
    ∀ (s t : String), s = t →
      extractFunctions s = extractFunctions t ∧
        resolveImports s = resolveImports t := by
  intro s t h
  rw [h]
  exact ⟨rfl, rfl⟩

/-- C9 witness: determinism instantiated at the math.py fixture. -/
theorem claim_C9_witness :
    extractFunctions mathPy = extractFunctions mathPy ∧
      resolveImports mathPy = resolveImports mathPy :=
  claim_C9 mathPy mathPy rfl

/-- C10: for the fixture decorator factory retry, a non-positive times
returns None without calling func at all, and for times at least one with
every call raising, the exception is re-raised only on the final attempt,
after exactly times calls. -/
theorem claim_C10 :
    (∀ (E A : Type) (times : Int), times ≤ 0 → ∀ (func : Nat → Except E A),
      retryRun times func = (.val none, 0)) ∧
    (∀ (E A : Type) (times : Int), 1 ≤ times → ∀ (es : Nat → E),
      retryRun (A := A) times (fun i => Except.error (es i)) =
        (.exc (es (times.toNat - 1)), times.toNat)) := by
  constructor
  · intro E A times ht func
    have h0 : times.toNat = 0 := Int.toNat_of_nonpos ht
    simp [retryRun, h0, retryGo]
  · intro E A times ht es
    have h1 : ((0 : Nat) : Int) + times.toNat = times := by
      simp [Int.toNat_of_nonneg (by omega : (0 : Int) ≤ times)]
    have h2 : 1 ≤ times.toNat := by omega
    have h3 := retryGo_allErr (A := A) times es times.toNat 0 h1 h2
    simpa using h3

/-- C10 witness: retry(-2) returns None with zero calls; retry(3) on an
always-raising callable re-raises the third attempt's exception after
exactly three calls. -/
theorem claim_C10_witness :
    retryRun (-2 : Int) (fun _ : Nat => (Except.ok 7 : Except Nat Nat)) =
        (.val none, 0) ∧
    retryRun (A := Nat) (3 : Int) (fun i : Nat => (Except.error i : Except Nat Nat)) =
        (.exc 2, 3) :=
  ⟨claim_C10.1 Nat Nat (-2) (by decide) _,
    by have h := claim_C10.2 Nat Nat 3 (by decide) (fun i => i); simpa using h⟩

end VibeRag
